import Mathlib

/-!
Formal model of the daemon command/response subsystem of cipher-chat-mini.

The client handle (DaemonClient.connect, sendCommand, isDaemonRunning) and the
daemon server (MatrixDaemon command dispatch, stop_daemon handling) are embedded
as explicit state-transition functions over the events each piece of code
reacts to: response envelopes, socket connect/error events, and timer firings.
Promise settlement is modelled by an Option-valued field updated by a
first-settlement-wins combinator, matching JS promise semantics.
-/

namespace CipherChat

/-- Wire response envelope as emitted by the daemon: requestId correlates to
the originating command, success selects between the data payload and the
error message (payloads are abstracted to Nat). -/
structure Response where
  requestId : Nat
  success : Bool
  data : Nat
  error : String
deriving DecidableEq

/-- Terminal settlement of a promise: resolved with an optional payload
(resolve() carries none, resolve(data) carries some data) or rejected with an
error message. -/
inductive Settlement where
  | resolvedWith : Option Nat → Settlement
  | rejectedWith : String → Settlement
deriving DecidableEq

/-- A promise settles at most once: the first settlement wins and every later
resolve or reject call is a no-op. -/
def settleOnce : Option Settlement → Settlement → Option Settlement
  | none, s => some s
  | some s0, _ => some s0

/-- The sendCommand code classifies a call as Streaming iff the action string
is streamMessages (isStream flag at the top of sendCommand). -/
def isStreamAction (action : String) : Bool := action == "streamMessages"

/-- Timeout rejection message built by the sendCommand timer for atomic
commands; it interpolates the action name. -/
def timeoutMessage (action : String) : String :=
  "Timeout waiting for response to command: " ++ action

/-- Client-side state of one pending sendCommand call: whether the response
handler is still attached to the channel, the resolved flag of the streaming
path, whether the 10s timer is armed and not yet fired, the settlement of the
wrapping promise, and the log of params.callback invocations. -/
structure PendingState where
  listenerAttached : Bool
  resolvedFlag : Bool
  timerPending : Bool
  settled : Option Settlement
  callbackLog : List Nat
deriving DecidableEq

/-- State of a pending call right after sendCommand registered the handler and
emitted the command envelope: the handler is attached, nothing is settled, and
the timer is armed only for non-streaming actions. -/
def initPending (action : String) : PendingState :=
  { listenerAttached := true
    resolvedFlag := false
    timerPending := !(isStreamAction action)
    settled := none
    callbackLog := [] }

/-- The response handler installed by sendCommand. A detached handler never
runs; a response with a foreign requestId is ignored; a matching successful
response either feeds the streaming callback (resolving the promise on the
first one only) or, in the atomic case, detaches the handler and resolves with
the data; a matching failure detaches the handler and rejects with the error
string. -/
def handleResponse (action : String) (rid : Nat) (st : PendingState)
    (r : Response) : PendingState :=
  if st.listenerAttached = false then st
  else if r.requestId ≠ rid then st
  else if r.success = true then
    if isStreamAction action = true then
      if st.resolvedFlag = true then
        { st with callbackLog := st.callbackLog ++ [r.data] }
      else
        { st with callbackLog := st.callbackLog ++ [r.data]
                  settled := settleOnce st.settled (Settlement.resolvedWith none)
                  resolvedFlag := true }
    else
      { st with listenerAttached := false
                settled := settleOnce st.settled
                  (Settlement.resolvedWith (some r.data)) }
  else
    { st with listenerAttached := false
              settled := settleOnce st.settled (Settlement.rejectedWith r.error) }

/-- The 10-second timer body for atomic commands: when it fires it removes the
response handler and rejects with the timeout message. The timer is one-shot
and is never cleared by the code, so firing only depends on it being armed and
not yet fired. -/
def fireTimer (action : String) (st : PendingState) : PendingState :=
  if st.timerPending = true then
    { st with timerPending := false
              listenerAttached := false
              settled := settleOnce st.settled
                (Settlement.rejectedWith (timeoutMessage action)) }
  else st

/-- Events a pending sendCommand call can observe: a response envelope arriving
on the channel, or the firing of the timeout timer. -/
inductive ClientEvent where
  | resp : Response → ClientEvent
  | timerFire : ClientEvent
deriving DecidableEq

/-- One event step of a pending call. -/
def stepPending (action : String) (rid : Nat) (st : PendingState)
    (e : ClientEvent) : PendingState :=
  match e with
  | ClientEvent.resp r => handleResponse action rid st r
  | ClientEvent.timerFire => fireTimer action st

/-- Run a pending call over a list of observed events. -/
def runPending (action : String) (rid : Nat) (st : PendingState)
    (evs : List ClientEvent) : PendingState :=
  evs.foldl (stepPending action rid) st

/-- Successful matching payloads contained in an event list, in order: these
are exactly the responses that feed the streaming callback. -/
def successDatas (rid : Nat) : List ClientEvent → List Nat
  | [] => []
  | ClientEvent.resp r :: evs =>
      (if r.requestId = rid ∧ r.success = true then [r.data] else [])
        ++ successDatas rid evs
  | ClientEvent.timerFire :: evs => successDatas rid evs

/-- An event list in which every response matching the given requestId is a
successful one. -/
def noMatchingFailure (rid : Nat) (evs : List ClientEvent) : Prop :=
  ∀ r : Response, ClientEvent.resp r ∈ evs → r.requestId = rid →
    r.success = true

theorem stepPending_keeps_settled (action : String) (rid : Nat)
    (st : PendingState) (e : ClientEvent) (s : Settlement)
    (h : st.settled = some s) : (stepPending action rid st e).settled = some s := by
  cases e with
  | resp r =>
      simp only [stepPending, handleResponse]
      repeat' split
      all_goals simp [settleOnce, h]
  | timerFire =>
      simp only [stepPending, fireTimer]
      split
      · simp [settleOnce, h]
      · exact h

theorem runPending_keeps_settled (action : String) (rid : Nat)
    (evs : List ClientEvent) (st : PendingState) (s : Settlement)
    (h : st.settled = some s) : (runPending action rid st evs).settled = some s := by
  induction evs generalizing st with
  | nil => exact h
  | cons e evs ih =>
      exact ih _ (stepPending_keeps_settled action rid st e s h)

theorem handleResponse_detached (action : String) (rid : Nat)
    (st : PendingState) (r : Response) (h : st.listenerAttached = false) :
    handleResponse action rid st r = st := by
  simp [handleResponse, h]

theorem fireTimer_unarmed (action : String) (st : PendingState)
    (h : st.timerPending = false) : fireTimer action st = st := by
  simp [fireTimer, h]

theorem runPending_frozen (action : String) (rid : Nat)
    (evs : List ClientEvent) (st : PendingState)
    (h1 : st.listenerAttached = false) (h2 : st.timerPending = false) :
    runPending action rid st evs = st := by
  induction evs with
  | nil => rfl
  | cons e evs ih =>
      have hstep : stepPending action rid st e = st := by
        cases e with
        | resp r => exact handleResponse_detached action rid st r h1
        | timerFire => exact fireTimer_unarmed action st h2
      simpa [runPending, hstep] using ih

theorem handleResponse_nonmatching (action : String) (rid : Nat)
    (st : PendingState) (r : Response) (h : r.requestId ≠ rid) :
    handleResponse action rid st r = st := by
  simp [handleResponse, h]

theorem runPending_no_relevant_event (action : String) (rid : Nat)
    (evs : List ClientEvent)
    (hm : ∀ r : Response, ClientEvent.resp r ∈ evs → r.requestId ≠ rid)
    (ht : ClientEvent.timerFire ∉ evs) (st : PendingState) :
    runPending action rid st evs = st := by
  induction evs with
  | nil => rfl
  | cons e evs ih =>
      cases e with
      | resp r =>
          have hr : r.requestId ≠ rid := hm r (List.mem_cons_self _ _)
          have hstep : stepPending action rid st (ClientEvent.resp r) = st :=
            handleResponse_nonmatching action rid st r hr
          have := ih (fun r hmem => hm r (List.mem_cons_of_mem _ hmem))
            (fun hmem => ht (List.mem_cons_of_mem _ hmem))
          simpa [runPending, hstep] using this
      | timerFire => exact absurd (List.mem_cons_self _ _) ht

/-- C1. Atomic commands settle exactly once. For an action other than
streamMessages: a settled value is never changed by later responses or timer
firings; events before the first matching response leave the pending call in
its initial state; the first matching response detaches the response handler
and resolves with the data on success or rejects with the error on failure;
when no matching response ever arrives, the armed 10s timer rejects with the
timeout message and detaches the handler; and the timeout message contains the
action name. -/
theorem sendCommand_atomic_exactly_once (action : String) (rid : Nat)
    (hA : isStreamAction action = false) :
    (∀ (st : PendingState) (s : Settlement) (evs : List ClientEvent),
        st.settled = some s → (runPending action rid st evs).settled = some s)
    ∧
    (∀ evs : List ClientEvent,
        (∀ r : Response, ClientEvent.resp r ∈ evs → r.requestId ≠ rid) →
        ClientEvent.timerFire ∉ evs →
        runPending action rid (initPending action) evs = initPending action)
    ∧
    (∀ r : Response, r.requestId = rid →
        handleResponse action rid (initPending action) r =
          { listenerAttached := false
            resolvedFlag := false
            timerPending := true
            settled := some (if r.success = true
              then Settlement.resolvedWith (some r.data)
              else Settlement.rejectedWith r.error)
            callbackLog := [] })
    ∧
    (∀ evs : List ClientEvent,
        (∀ r : Response, ClientEvent.resp r ∈ evs → r.requestId ≠ rid) →
        ClientEvent.timerFire ∈ evs →
        (runPending action rid (initPending action) evs).settled
            = some (Settlement.rejectedWith (timeoutMessage action))
        ∧ (runPending action rid (initPending action) evs).listenerAttached
            = false)
    ∧
    (∃ pre : String, timeoutMessage action = pre ++ action) := by
  refine ⟨fun st s evs h => runPending_keeps_settled action rid evs st s h,
    fun evs hm ht => runPending_no_relevant_event action rid evs hm ht _,
    ?_, ?_, ⟨"Timeout waiting for response to command: ", rfl⟩⟩
  · intro r hr
    cases hs : r.success with
    | true => simp [handleResponse, initPending, hr, hs, hA, settleOnce]
    | false => simp [handleResponse, initPending, hr, hs, hA, settleOnce]
  · intro evs hm ht
    induction evs with
    | nil => exact absurd ht (List.not_mem_nil _)
    | cons e evs ih =>
        cases e with
        | resp r =>
            have hr : r.requestId ≠ rid := hm r (List.mem_cons_self _ _)
            have hstep : stepPending action rid (initPending action)
                (ClientEvent.resp r) = initPending action :=
              handleResponse_nonmatching action rid _ r hr
            have ht2 : ClientEvent.timerFire ∈ evs := by
              cases List.mem_cons.mp ht with
              | inl h => exact absurd h (by simp)
              | inr h => exact h
            have := ih (fun r hmem => hm r (List.mem_cons_of_mem _ hmem)) ht2
            simpa [runPending, hstep] using this
        | timerFire =>
            have hfire : stepPending action rid (initPending action)
                ClientEvent.timerFire =
                { listenerAttached := false
                  resolvedFlag := false
                  timerPending := false
                  settled := some (Settlement.rejectedWith
                    (timeoutMessage action))
                  callbackLog := [] } := by
              simp [stepPending, fireTimer, initPending, hA, settleOnce]
            have hall : runPending action rid (initPending action)
                (ClientEvent.timerFire :: evs) =
                { listenerAttached := false
                  resolvedFlag := false
                  timerPending := false
                  settled := some (Settlement.rejectedWith
                    (timeoutMessage action))
                  callbackLog := [] } := by
              show runPending action rid
                (stepPending action rid (initPending action)
                  ClientEvent.timerFire) evs = _
              rw [hfire]
              exact runPending_frozen action rid evs _ rfl rfl
            exact ⟨by rw [hall], by rw [hall]⟩

/-- Witness for C1: concrete atomic action and a concrete first matching
successful response, evaluated on the model. -/
theorem sendCommand_atomic_exactly_once_witness :
    isStreamAction "getMessages" = false ∧
    handleResponse "getMessages" 0 (initPending "getMessages")
        { requestId := 0, success := true, data := 7, error := "" } =
      { listenerAttached := false
        resolvedFlag := false
        timerPending := true
        settled := some (Settlement.resolvedWith (some 7))
        callbackLog := [] } := by
  refine ⟨by decide, ?_⟩
  have h := (sendCommand_atomic_exactly_once "getMessages" 0 (by decide)).2.2.1
    { requestId := 0, success := true, data := 7, error := "" } rfl
  simpa using h

/-- Invariant maintained by the streaming path of the response handler: the
handler stays attached, no timer is armed, and the promise is resolved with no
payload exactly when the resolved flag is set. -/
def streamInv (st : PendingState) : Prop :=
  st.listenerAttached = true ∧ st.timerPending = false ∧
    ((st.resolvedFlag = false ∧ st.settled = none) ∨
      (st.resolvedFlag = true ∧
        st.settled = some (Settlement.resolvedWith none)))

theorem runPending_stream (action : String) (rid : Nat)
    (hS : isStreamAction action = true) (evs : List ClientEvent)
    (st : PendingState) (hInv : streamInv st)
    (hnf : noMatchingFailure rid evs) :
    streamInv (runPending action rid st evs) ∧
    (runPending action rid st evs).callbackLog
        = st.callbackLog ++ successDatas rid evs ∧
    (runPending action rid st evs).resolvedFlag
        = (st.resolvedFlag || !(successDatas rid evs).isEmpty) := by
  induction evs generalizing st with
  | nil =>
      refine ⟨hInv, by simp [runPending, successDatas], ?_⟩
      simp [runPending, successDatas]
  | cons e evs ih =>
      have hnf2 : noMatchingFailure rid evs := by
        intro r hmem hr
        exact hnf r (List.mem_cons_of_mem _ hmem) hr
      obtain ⟨hL, hT, hResolved⟩ := hInv
      cases e with
      | timerFire =>
          have hstep : stepPending action rid st ClientEvent.timerFire = st :=
            fireTimer_unarmed action st hT
          have hrun : runPending action rid st
              (ClientEvent.timerFire :: evs) = runPending action rid st evs := by
            show runPending action rid
              (stepPending action rid st ClientEvent.timerFire) evs = _
            rw [hstep]
          rw [hrun]
          have := ih st ⟨hL, hT, hResolved⟩ hnf2
          simpa [successDatas] using this
      | resp r =>
          by_cases hr : r.requestId = rid
          · have hsucc : r.success = true :=
              hnf r (List.mem_cons_self _ _) hr
            cases hResolved with
            | inl hcase =>
                obtain ⟨hrf, hsettled⟩ := hcase
                have hstep : stepPending action rid st (ClientEvent.resp r) =
                    { st with
                        callbackLog := st.callbackLog ++ [r.data]
                        settled := some (Settlement.resolvedWith none)
                        resolvedFlag := true } := by
                  simp [stepPending, handleResponse, hL, hr, hsucc, hS, hrf,
                    hsettled, settleOnce]
                have hrun : runPending action rid st
                    (ClientEvent.resp r :: evs) =
                    runPending action rid
                      { st with
                          callbackLog := st.callbackLog ++ [r.data]
                          settled := some (Settlement.resolvedWith none)
                          resolvedFlag := true } evs := by
                  show runPending action rid
                    (stepPending action rid st (ClientEvent.resp r)) evs = _
                  rw [hstep]
                rw [hrun]
                have hInv1 : streamInv
                    { st with
                        callbackLog := st.callbackLog ++ [r.data]
                        settled := some (Settlement.resolvedWith none)
                        resolvedFlag := true } := by
                  exact ⟨hL, hT, Or.inr ⟨rfl, rfl⟩⟩
                obtain ⟨hi1, hi2, hi3⟩ := ih _ hInv1 hnf2
                refine ⟨hi1, ?_, ?_⟩
                · rw [hi2]
                  simp [successDatas, hr, hsucc]
                · rw [hi3]
                  simp [successDatas, hr, hsucc]
            | inr hcase =>
                obtain ⟨hrf, hsettled⟩ := hcase
                have hstep : stepPending action rid st (ClientEvent.resp r) =
                    { st with callbackLog := st.callbackLog ++ [r.data] } := by
                  simp [stepPending, handleResponse, hL, hr, hsucc, hS, hrf]
                have hrun : runPending action rid st
                    (ClientEvent.resp r :: evs) =
                    runPending action rid
                      { st with callbackLog := st.callbackLog ++ [r.data] }
                      evs := by
                  show runPending action rid
                    (stepPending action rid st (ClientEvent.resp r)) evs = _
                  rw [hstep]
                rw [hrun]
                have hInv1 : streamInv
                    { st with callbackLog := st.callbackLog ++ [r.data] } :=
                  ⟨hL, hT, Or.inr ⟨hrf, hsettled⟩⟩
                obtain ⟨hi1, hi2, hi3⟩ := ih _ hInv1 hnf2
                refine ⟨hi1, ?_, ?_⟩
                · rw [hi2]
                  simp [successDatas, hr, hsucc]
                · rw [hi3]
                  simp [successDatas, hr, hsucc, hrf]
          · have hstep : stepPending action rid st (ClientEvent.resp r) = st :=
              handleResponse_nonmatching action rid st r hr
            have hrun : runPending action rid st
                (ClientEvent.resp r :: evs) = runPending action rid st evs := by
              show runPending action rid
                (stepPending action rid st (ClientEvent.resp r)) evs = _
              rw [hstep]
            rw [hrun]
            have := ih st ⟨hL, hT, hResolved⟩ hnf2
            simpa [successDatas, hr] using this

/-- C2. Streaming commands: over any event sequence whose matching responses
are all successful, the callback log equals the list of matching successful
payloads in order (so the callback fires exactly once per such response), the
response handler stays attached, no timeout timer is ever armed, the wrapping
promise is unsettled while no successful response has arrived and resolves
once with no payload as soon as one has; a matching failure response detaches
the handler and rejects with the error string. -/
theorem sendCommand_streaming_multiplicity (action : String) (rid : Nat)
    (hS : isStreamAction action = true) (evs : List ClientEvent)
    (hnf : noMatchingFailure rid evs) :
    (runPending action rid (initPending action) evs).callbackLog
        = successDatas rid evs
    ∧ (runPending action rid (initPending action) evs).listenerAttached = true
    ∧ (runPending action rid (initPending action) evs).timerPending = false
    ∧ (initPending action).timerPending = false
    ∧ (successDatas rid evs = [] →
        (runPending action rid (initPending action) evs).settled = none)
    ∧ (successDatas rid evs ≠ [] →
        (runPending action rid (initPending action) evs).settled
          = some (Settlement.resolvedWith none))
    ∧ (∀ (st : PendingState) (r : Response), st.listenerAttached = true →
        r.requestId = rid → r.success = false →
        (handleResponse action rid st r).listenerAttached = false ∧
        (handleResponse action rid st r).settled
            = settleOnce st.settled (Settlement.rejectedWith r.error)) := by
  have hInit : streamInv (initPending action) := by
    refine ⟨rfl, ?_, Or.inl ⟨rfl, rfl⟩⟩
    simp [initPending, hS]
  obtain ⟨⟨hL, hT, hResolved⟩, hlog, hflag⟩ :=
    runPending_stream action rid hS evs (initPending action) hInit hnf
  refine ⟨by simpa [initPending] using hlog, hL, hT,
    by simp [initPending, hS], ?_, ?_, ?_⟩
  · intro hempty
    cases hResolved with
    | inl h => exact h.2
    | inr h =>
        have hrf : (initPending action).resolvedFlag = false := rfl
        rw [hempty, hrf, h.1] at hflag
        simp at hflag
  · intro hnonempty
    cases hResolved with
    | inl h =>
        have hrf : (initPending action).resolvedFlag = false := rfl
        rw [hrf, h.1] at hflag
        cases hse : successDatas rid evs with
        | nil => exact absurd hse hnonempty
        | cons x xs =>
            rw [hse] at hflag
            simp at hflag
    | inr h => exact h.2
  · intro st r hAtt hr hfail
    constructor
    · simp [handleResponse, hAtt, hr, hfail]
    · simp [handleResponse, hAtt, hr, hfail]

/-- Witness for C2: a concrete streaming call observing two successful
responses and one foreign response, evaluated on the model. -/
theorem sendCommand_streaming_multiplicity_witness :
    isStreamAction "streamMessages" = true ∧
    (runPending "streamMessages" 5 (initPending "streamMessages")
        [ClientEvent.resp { requestId := 5, success := true, data := 10, error := "" },
         ClientEvent.resp { requestId := 9, success := true, data := 99, error := "" },
         ClientEvent.resp { requestId := 5, success := true, data := 11, error := "" }]).callbackLog
      = [10, 11] ∧
    (runPending "streamMessages" 5 (initPending "streamMessages")
        [ClientEvent.resp { requestId := 5, success := true, data := 10, error := "" },
         ClientEvent.resp { requestId := 9, success := true, data := 99, error := "" },
         ClientEvent.resp { requestId := 5, success := true, data := 11, error := "" }]).settled
      = some (Settlement.resolvedWith none) := by
  have h := sendCommand_streaming_multiplicity "streamMessages" 5 (by decide)
    [ClientEvent.resp { requestId := 5, success := true, data := 10, error := "" },
     ClientEvent.resp { requestId := 9, success := true, data := 99, error := "" },
     ClientEvent.resp { requestId := 5, success := true, data := 11, error := "" }]
    (by intro r hmem hr; fin_cases hmem <;> simp_all)
  refine ⟨by decide, ?_, ?_⟩
  · rw [h.1]
    decide
  · exact h.2.2.2.2.2.1 (by decide)

/-- Classification of a channel connect failure, mirroring the check of
err.code against ENOENT in the connect error handler. -/
inductive ErrCode where
  | enoent : ErrCode
  | other : String → ErrCode
deriving DecidableEq

/-- Fixed backoff delay, in milliseconds, between spawning the daemon and
retrying connect. -/
def backoffMs : Nat := 800

/-- State of the DaemonClient connection logic. The connected flag and the
connecting promise mirror the two instance fields; attempt promises are
numbered by nextId; bindCount counts connectTo binds to the well-known
channel name and spawnCount counts startDaemonProcess invocations;
retryTimers holds the delays of pending backoff timers; chainedPromises are
earlier attempt promises left pending by an ENOENT failure, chained onto the
next connect by the retry (connect().then(resolve).catch(reject));
resolvedOk and rejected record promise settlements. -/
structure ConnState where
  connected : Bool
  connecting : Option Nat
  nextId : Nat
  bindCount : Nat
  spawnCount : Nat
  retryTimers : List Nat
  chainedPromises : List Nat
  resolvedOk : List Nat
  rejected : List (Nat × String)
deriving DecidableEq

/-- What a caller of connect receives: an immediate return when already
connected, the in-flight promise when one exists, or a freshly started
attempt promise. -/
inductive CallTicket where
  | alreadyConnected : CallTicket
  | joined : Nat → CallTicket
  | started : Nat → CallTicket
deriving DecidableEq

/-- One call to connect. Returns immediately when connected; returns the
shared in-flight promise when connecting is set; otherwise binds to the
well-known channel name, creating a new attempt promise. The body of connect
runs without suspension points, so two calls never interleave inside it. -/
def connectCall (st : ConnState) : ConnState × CallTicket :=
  if st.connected = true then (st, CallTicket.alreadyConnected)
  else
    match st.connecting with
    | some p => (st, CallTicket.joined p)
    | none =>
        ({ st with connecting := some st.nextId
                   nextId := st.nextId + 1
                   bindCount := st.bindCount + 1 },
         CallTicket.started st.nextId)

/-- The connect handler of the in-flight attempt: sets connected, clears
connecting and resolves the attempt promise together with every promise
chained onto it by earlier ENOENT retries. Without an in-flight attempt the
socket handlers have been removed, so the event is ignored. -/
def onAttemptConnect (st : ConnState) : ConnState :=
  match st.connecting with
  | none => st
  | some p =>
      { st with connected := true
                connecting := none
                resolvedOk := st.resolvedOk ++ st.chainedPromises ++ [p]
                chainedPromises := [] }

/-- The error handler of the in-flight attempt. It first removes both socket
handlers and clears connecting, then classifies exactly once: on ENOENT it
spawns the daemon process and schedules a backoff retry timer, leaving the
attempt promise pending (chained to the retried connect); on any other error
it rejects the attempt promise, and every promise chained onto it, with the
raw error, spawning nothing and scheduling nothing. -/
def onAttemptError (code : ErrCode) (st : ConnState) : ConnState :=
  match st.connecting with
  | none => st
  | some p =>
      match code with
      | ErrCode.enoent =>
          { st with connecting := none
                    spawnCount := st.spawnCount + 1
                    retryTimers := st.retryTimers ++ [backoffMs]
                    chainedPromises := st.chainedPromises ++ [p] }
      | ErrCode.other msg =>
          { st with connecting := none
                    rejected := st.rejected ++
                      (st.chainedPromises ++ [p]).map (fun q => (q, msg))
                    chainedPromises := [] }

/-- A pending backoff timer fires: it performs the recursive connect call. -/
def retryFire (st : ConnState) : ConnState :=
  match st.retryTimers with
  | [] => st
  | _ :: rest => (connectCall { st with retryTimers := rest }).1

/-- Events driving the connect state machine: a caller invoking connect, the
socket of the in-flight attempt emitting connect or error, and a backoff
timer firing. -/
inductive ConnEvent where
  | call : ConnEvent
  | sockConnect : ConnEvent
  | sockError : ErrCode → ConnEvent
  | retry : ConnEvent
deriving DecidableEq

/-- One step of the connect state machine. -/
def connStep (st : ConnState) (e : ConnEvent) : ConnState :=
  match e with
  | ConnEvent.call => (connectCall st).1
  | ConnEvent.sockConnect => onAttemptConnect st
  | ConnEvent.sockError c => onAttemptError c st
  | ConnEvent.retry => retryFire st

/-- Run the connect state machine over a list of events. -/
def connRun (evs : List ConnEvent) (st : ConnState) : ConnState :=
  evs.foldl connStep st

/-- State of a freshly constructed DaemonClient: not connected, no in-flight
attempt, nothing bound, spawned or settled. -/
def initConn : ConnState :=
  { connected := false, connecting := none, nextId := 0, bindCount := 0,
    spawnCount := 0, retryTimers := [], chainedPromises := [],
    resolvedOk := [], rejected := [] }

/-- Iterate n consecutive connect calls, collecting each caller ticket. -/
def callsRepeat : Nat → ConnState → ConnState × List CallTicket
  | 0, st => (st, [])
  | n + 1, st =>
      let r := connectCall st
      let rest := callsRepeat n r.1
      (rest.1, r.2 :: rest.2)

/-- C3 counterexample. The claim extends the single-bind guarantee to the
backoff window of a spawn-and-retry cycle, but there the connecting field has
been reset to none: after one call and an ENOENT failure the handle sits in
the backoff window (a retry timer is pending) with bindCount already 1, and a
connect call made in that window performs a second bind to the well-known
channel name. -/
theorem connect_backoff_window_second_bind :
    (connRun [ConnEvent.call, ConnEvent.sockError ErrCode.enoent]
        initConn).retryTimers = [backoffMs]
    ∧ (connRun [ConnEvent.call, ConnEvent.sockError ErrCode.enoent]
        initConn).connecting = none
    ∧ (connRun [ConnEvent.call, ConnEvent.sockError ErrCode.enoent]
        initConn).bindCount = 1
    ∧ (connectCall (connRun [ConnEvent.call, ConnEvent.sockError ErrCode.enoent]
        initConn)).1.bindCount = 2 := by
  decide

/-- C3 amended. While an attempt is genuinely in flight (the connecting field
holds a promise and the handle is not connected), any number of concurrent
connect calls leave the state untouched — in particular no further bind
occurs — and every caller receives the same in-flight attempt promise. -/
theorem connect_single_inflight_attempt (st : ConnState) (p : Nat) (n : Nat)
    (hc : st.connected = false) (hp : st.connecting = some p) :
    callsRepeat n st = (st, List.replicate n (CallTicket.joined p)) := by
  induction n with
  | zero => simp [callsRepeat]
  | succ n ih =>
      have hcall : connectCall st = (st, CallTicket.joined p) := by
        simp [connectCall, hc, hp]
      simp [callsRepeat, hcall, ih, List.replicate_succ]

/-- Witness for C3: three concurrent connect calls against a concrete state
with an in-flight attempt all join attempt 0 and change nothing. -/
theorem connect_single_inflight_attempt_witness :
    callsRepeat 3 (connRun [ConnEvent.call] initConn) =
      (connRun [ConnEvent.call] initConn,
        List.replicate 3 (CallTicket.joined 0)) := by
  exact connect_single_inflight_attempt (connRun [ConnEvent.call] initConn) 0 3
    (by decide) (by decide)

/-- C4. The error handler of a live attempt classifies the failure exactly
once: an ENOENT failure spawns the daemon process, schedules one retry timer
with the fixed 800ms backoff and rejects nothing (the attempt promise stays
pending, chained to the retried connect); any other failure rejects the
attempt promise (and its chain) with the raw error message, spawns nothing
and schedules no retry; and because the handlers are removed before
classifying, a second error event on the same attempt is ignored. -/
theorem connect_error_classification (st : ConnState) (p : Nat)
    (h : st.connecting = some p) :
    (onAttemptError ErrCode.enoent st =
      { st with connecting := none
                spawnCount := st.spawnCount + 1
                retryTimers := st.retryTimers ++ [backoffMs]
                chainedPromises := st.chainedPromises ++ [p] })
    ∧ (∀ msg : String, onAttemptError (ErrCode.other msg) st =
      { st with connecting := none
                rejected := st.rejected ++
                  (st.chainedPromises ++ [p]).map (fun q => (q, msg))
                chainedPromises := [] })
    ∧ (∀ msg : String,
        (onAttemptError (ErrCode.other msg) st).spawnCount = st.spawnCount
        ∧ (onAttemptError (ErrCode.other msg) st).retryTimers = st.retryTimers
        ∧ (onAttemptError (ErrCode.other msg) st).rejected
            = st.rejected ++ (st.chainedPromises ++ [p]).map (fun q => (q, msg)))
    ∧ backoffMs = 800
    ∧ (∀ c c2 : ErrCode,
        onAttemptError c2 (onAttemptError c st) = onAttemptError c st) := by
  refine ⟨by simp [onAttemptError, h], by intro msg; simp [onAttemptError, h],
    ?_, rfl, ?_⟩
  · intro msg
    refine ⟨?_, ?_, ?_⟩ <;> simp [onAttemptError, h]
  · intro c c2
    have hnone : (onAttemptError c st).connecting = none := by
      cases c <;> simp [onAttemptError, h]
    cases h2 : onAttemptError c st
    simp only [onAttemptError]
    simp [h2] at hnone
    rw [hnone]

/-- Witness for C4: a concrete in-flight attempt, evaluating both the ENOENT
branch and a non-ENOENT branch. -/
theorem connect_error_classification_witness :
    (onAttemptError ErrCode.enoent (connRun [ConnEvent.call] initConn)).spawnCount
        = 1
    ∧ (onAttemptError (ErrCode.other "EACCES")
        (connRun [ConnEvent.call] initConn)).spawnCount = 0
    ∧ (onAttemptError (ErrCode.other "EACCES")
        (connRun [ConnEvent.call] initConn)).rejected = [(0, "EACCES")] := by
  have h := connect_error_classification (connRun [ConnEvent.call] initConn) 0
    (by decide)
  refine ⟨?_, ?_, ?_⟩
  · rw [h.1]
    decide
  · rw [(h.2.2.1 "EACCES").1]
    decide
  · rw [(h.2.2.1 "EACCES").2.2]
    decide

/-- C5 counterexample. An execution in which the daemon the first spawn
started is slow to bind: the first retry fails with ENOENT again, which
spawns a second process before the next retry succeeds. The cycle eventually
succeeds (connected ends true) yet two spawn attempts occurred. -/
theorem connect_retry_spawns_twice :
    (connRun [ConnEvent.call, ConnEvent.sockError ErrCode.enoent,
        ConnEvent.retry, ConnEvent.sockError ErrCode.enoent,
        ConnEvent.retry, ConnEvent.sockConnect] initConn).connected = true
    ∧ (connRun [ConnEvent.call, ConnEvent.sockError ErrCode.enoent,
        ConnEvent.retry, ConnEvent.sockError ErrCode.enoent,
        ConnEvent.retry, ConnEvent.sockConnect] initConn).spawnCount = 2 := by
  decide

/-- C5 amended. Each ENOENT-failed attempt spawns exactly one daemon process
(an error without a live attempt spawns none), so the number of spawns equals
the number of ENOENT failures: in particular exactly one spawn occurs when the
first retry succeeds, but one more process is spawned for every further
ENOENT retry failure. -/
theorem connect_spawn_per_enoent_failure :
    (∀ (st : ConnState) (p : Nat), st.connecting = some p →
        (onAttemptError ErrCode.enoent st).spawnCount = st.spawnCount + 1)
    ∧ (∀ st : ConnState, st.connecting = none →
        (onAttemptError ErrCode.enoent st).spawnCount = st.spawnCount)
    ∧ (connRun [ConnEvent.call, ConnEvent.sockError ErrCode.enoent,
        ConnEvent.retry, ConnEvent.sockConnect] initConn).connected = true
    ∧ (connRun [ConnEvent.call, ConnEvent.sockError ErrCode.enoent,
        ConnEvent.retry, ConnEvent.sockConnect] initConn).spawnCount = 1 := by
  refine ⟨?_, ?_, by decide, by decide⟩
  · intro st p h
    simp [onAttemptError, h]
  · intro st h
    simp [onAttemptError, h]

/-- Witness for C5: the per-failure spawn count evaluated on a concrete
in-flight attempt. -/
theorem connect_spawn_per_enoent_failure_witness :
    (onAttemptError ErrCode.enoent (connRun [ConnEvent.call] initConn)).spawnCount
      = (connRun [ConnEvent.call] initConn).spawnCount + 1 := by
  exact connect_spawn_per_enoent_failure.1 (connRun [ConnEvent.call] initConn) 0
    (by decide)

/-- Settlement of the isDaemonRunning promise: resolved with true, resolved
with false, or rejected with an error message. -/
inductive ProbeOutcome where
  | resolvedTrue : ProbeOutcome
  | resolvedFalse : ProbeOutcome
  | rejectedErr : String → ProbeOutcome
deriving DecidableEq

/-- Message of the probe timeout rejection. -/
def probeTimeoutMessage : String := "⌚ Daemon state check timed out."

/-- Message of the probe rejection for a non-ENOENT connection error. -/
def probeErrorMessage (msg : String) : String :=
  "Daemon connection error: " ++ msg

/-- Fixed bound of the probe, in milliseconds. -/
def probeTimeoutMs : Nat := 3000

/-- State of one isDaemonRunning call: whether the connect and error
listeners are still attached, whether the 3s timer is armed and unfired,
whether the probe connection has been torn down, and the settlement of the
returned promise. -/
structure ProbeState where
  listenersAttached : Bool
  timerPending : Bool
  probeDisconnected : Bool
  settled : Option ProbeOutcome
deriving DecidableEq

/-- Probe state right after isDaemonRunning armed its timer and connectTo
attached the listeners. -/
def initProbe : ProbeState :=
  { listenersAttached := true, timerPending := true,
    probeDisconnected := false, settled := none }

/-- The cleanup helper of isDaemonRunning: clears the timer, disconnects the
probe connection and removes both listeners. -/
def probeCleanup (st : ProbeState) : ProbeState :=
  { st with listenersAttached := false, timerPending := false,
            probeDisconnected := true }

/-- First settlement wins for the probe promise as well. -/
def settleProbe : Option ProbeOutcome → ProbeOutcome → Option ProbeOutcome
  | none, o => some o
  | some o0, _ => some o0

/-- Events one isDaemonRunning call can observe: the probe socket connecting,
the probe socket erroring, and the 3s timer firing. -/
inductive ProbeEvent where
  | sockConnect : ProbeEvent
  | sockError : ErrCode → ProbeEvent
  | timeoutFires : ProbeEvent
deriving DecidableEq

/-- One event step of the probe. Each handler first runs cleanup and then
settles: connect resolves true; an ENOENT error resolves false; any other
error rejects with the distinguished connection-error message; the timer
rejects with the timeout message. Detached listeners and a cleared timer make
the corresponding events no-ops. -/
def probeStep (st : ProbeState) (e : ProbeEvent) : ProbeState :=
  match e with
  | ProbeEvent.sockConnect =>
      if st.listenersAttached = true then
        { probeCleanup st with
            settled := settleProbe st.settled ProbeOutcome.resolvedTrue }
      else st
  | ProbeEvent.sockError c =>
      if st.listenersAttached = true then
        match c with
        | ErrCode.enoent =>
            { probeCleanup st with
                settled := settleProbe st.settled ProbeOutcome.resolvedFalse }
        | ErrCode.other msg =>
            { probeCleanup st with
                settled := settleProbe st.settled
                  (ProbeOutcome.rejectedErr (probeErrorMessage msg)) }
      else st
  | ProbeEvent.timeoutFires =>
      if st.timerPending = true then
        { probeCleanup st with
            settled := settleProbe st.settled
              (ProbeOutcome.rejectedErr probeTimeoutMessage) }
      else st

/-- Run the probe over a list of observed events. -/
def probeRun (evs : List ProbeEvent) (st : ProbeState) : ProbeState :=
  evs.foldl probeStep st

/-- Settlement determined by the first event the probe observes. -/
def probeOutcomeOf : ProbeEvent → ProbeOutcome
  | ProbeEvent.sockConnect => ProbeOutcome.resolvedTrue
  | ProbeEvent.sockError ErrCode.enoent => ProbeOutcome.resolvedFalse
  | ProbeEvent.sockError (ErrCode.other msg) =>
      ProbeOutcome.rejectedErr (probeErrorMessage msg)
  | ProbeEvent.timeoutFires => ProbeOutcome.rejectedErr probeTimeoutMessage

theorem probeStep_frozen (st : ProbeState) (e : ProbeEvent)
    (h1 : st.listenersAttached = false) (h2 : st.timerPending = false) :
    probeStep st e = st := by
  cases e with
  | sockConnect => simp [probeStep, h1]
  | sockError c => simp [probeStep, h1]
  | timeoutFires => simp [probeStep, h2]

theorem probeRun_frozen (evs : List ProbeEvent) (st : ProbeState)
    (h1 : st.listenersAttached = false) (h2 : st.timerPending = false) :
    probeRun evs st = st := by
  induction evs with
  | nil => rfl
  | cons e evs ih =>
      have hstep : probeStep st e = st := probeStep_frozen st e h1 h2
      simpa [probeRun, hstep] using ih

theorem probeStep_init (e : ProbeEvent) :
    probeStep initProbe e =
      { listenersAttached := false, timerPending := false,
        probeDisconnected := true, settled := some (probeOutcomeOf e) } := by
  cases e with
  | sockConnect => rfl
  | sockError c => cases c <;> rfl
  | timeoutFires => rfl

/-- C6. The probe settles exactly once, and by classification of its first
event: connect resolves true, an ENOENT error resolves false, any other
error or the 3s timeout rejects with the corresponding distinguished message;
the probe connection is torn down in the same step, all later events are
ignored, and resolvedFalse arises from no event but the ENOENT error — in
particular the timeout event yields a rejection, never a resolution. -/
theorem isDaemonRunning_settlement (e : ProbeEvent) (evs : List ProbeEvent) :
    probeRun (e :: evs) initProbe =
      { listenersAttached := false, timerPending := false,
        probeDisconnected := true, settled := some (probeOutcomeOf e) }
    ∧ (∀ e2 : ProbeEvent,
        probeOutcomeOf e2 = ProbeOutcome.resolvedFalse ↔
          e2 = ProbeEvent.sockError ErrCode.enoent)
    ∧ probeOutcomeOf ProbeEvent.timeoutFires
        = ProbeOutcome.rejectedErr probeTimeoutMessage := by
  refine ⟨?_, ?_, rfl⟩
  · have hrest : probeRun evs
        ({ listenersAttached := false, timerPending := false,
           probeDisconnected := true,
           settled := some (probeOutcomeOf e) } : ProbeState) =
        { listenersAttached := false, timerPending := false,
          probeDisconnected := true, settled := some (probeOutcomeOf e) } :=
      probeRun_frozen evs _ rfl rfl
    show probeRun evs (probeStep initProbe e) = _
    rw [probeStep_init e]
    exact hrest
  · intro e2
    constructor
    · intro h
      cases e2 with
      | sockConnect => simp [probeOutcomeOf] at h
      | sockError c =>
          cases c with
          | enoent => rfl
          | other msg => simp [probeOutcomeOf] at h
      | timeoutFires => simp [probeOutcomeOf] at h
    · intro h
      rw [h]
      rfl

/-- Witness for C6: a probe observing an ENOENT error and then a stray timer
firing resolves false exactly once. -/
theorem isDaemonRunning_settlement_witness :
    probeRun [ProbeEvent.sockError ErrCode.enoent, ProbeEvent.timeoutFires]
        initProbe =
      { listenersAttached := false, timerPending := false,
        probeDisconnected := true,
        settled := some ProbeOutcome.resolvedFalse } := by
  exact (isDaemonRunning_settlement (ProbeEvent.sockError ErrCode.enoent)
    [ProbeEvent.timeoutFires]).1

/-- Observable connection state of the DaemonClient handle around a call to
isDaemonRunning: the connected and connecting fields, and whether the
underlying socket of the main channel to the daemon is established. -/
structure ClientHandleState where
  connected : Bool
  connecting : Bool
  channelOpen : Bool
deriving DecidableEq

/-- First statement of isDaemonRunning: this.ipc.disconnect on the shared IPC
instance under the well-known name, which closes any established main
channel. The connected and connecting fields are not touched anywhere in
isDaemonRunning. -/
def probeEntryDisconnect (h : ClientHandleState) : ClientHandleState :=
  { h with channelOpen := false }

/-- The probe then calls connectTo under the same well-known name on the same
IPC instance, reopening a socket there. -/
def probeConnectTo (h : ClientHandleState) : ClientHandleState :=
  { h with channelOpen := true }

/-- The cleanup path disconnects the well-known name again before settling. -/
def probeCleanupDisconnect (h : ClientHandleState) : ClientHandleState :=
  { h with channelOpen := false }

/-- Net effect of a settling isDaemonRunning call on the handle state: entry
disconnect, probe socket under the same name, cleanup disconnect. -/
def isDaemonRunningMainEffect (h : ClientHandleState) : ClientHandleState :=
  probeCleanupDisconnect (probeConnectTo (probeEntryDisconnect h))

/-- C7 counterexample. The probe is not independent of the main handle state:
for a handle holding an established main channel, isDaemonRunning reuses the
handle's own IPC instance and the well-known name and disconnects it at entry
and again in cleanup, so after the call settles the main channel is gone (and
the state is not the same as before the call). -/
theorem isDaemonRunning_probe_not_independent :
    ({ connected := true, connecting := false,
       channelOpen := true } : ClientHandleState).channelOpen = true
    ∧ (isDaemonRunningMainEffect
        { connected := true, connecting := false,
          channelOpen := true }).channelOpen = false
    ∧ isDaemonRunningMainEffect
        { connected := true, connecting := false, channelOpen := true } ≠
        { connected := true, connecting := false, channelOpen := true } := by
  decide

/-- C7 amended. isDaemonRunning leaves the connected and connecting fields of
the handle unchanged and tears the probe connection down before the promise
settles; but it is not independent of the main handle state: because it
disconnects the well-known name on the shared IPC instance, any established
main channel is closed by the call (with the connected flag left stale). -/
theorem isDaemonRunning_frame_effect (h : ClientHandleState) :
    (isDaemonRunningMainEffect h).connected = h.connected
    ∧ (isDaemonRunningMainEffect h).connecting = h.connecting
    ∧ (isDaemonRunningMainEffect h).channelOpen = false
    ∧ (∀ evs : List ProbeEvent,
        (probeRun evs initProbe).settled ≠ none →
        (probeRun evs initProbe).probeDisconnected = true) := by
  refine ⟨rfl, rfl, rfl, ?_⟩
  intro evs
  have key : ∀ (l : List ProbeEvent) (st : ProbeState),
      (st.settled ≠ none → st.probeDisconnected = true) →
      ((probeRun l st).settled ≠ none →
        (probeRun l st).probeDisconnected = true) := by
    intro l
    induction l with
    | nil => intro st hst; exact hst
    | cons e l ih =>
        intro st hst
        have hstep : (probeStep st e).settled ≠ none →
            (probeStep st e).probeDisconnected = true := by
          cases e with
          | sockConnect =>
              by_cases hl : st.listenersAttached = true
              · intro _; simp [probeStep, hl, probeCleanup]
              · intro hs
                have : probeStep st ProbeEvent.sockConnect = st := by
                  simp [probeStep, hl]
                rw [this] at hs ⊢
                exact hst hs
          | sockError c =>
              by_cases hl : st.listenersAttached = true
              · intro _
                cases c <;> simp [probeStep, hl, probeCleanup]
              · intro hs
                have : probeStep st (ProbeEvent.sockError c) = st := by
                  simp [probeStep, hl]
                rw [this] at hs ⊢
                exact hst hs
          | timeoutFires =>
              by_cases hl : st.timerPending = true
              · intro _; simp [probeStep, hl, probeCleanup]
              · intro hs
                have : probeStep st ProbeEvent.timeoutFires = st := by
                  simp [probeStep, hl]
                rw [this] at hs ⊢
                exact hst hs
        exact ih (probeStep st e) hstep
  exact key evs initProbe (by intro hs; exact absurd rfl hs)

/-- Witness for C7: the frame conditions evaluated on a connected handle, and
the teardown-before-settlement fact on a concrete probe run. -/
theorem isDaemonRunning_frame_effect_witness :
    (isDaemonRunningMainEffect
        { connected := true, connecting := true,
          channelOpen := false }).connected = true
    ∧ (probeRun [ProbeEvent.sockConnect] initProbe).probeDisconnected
        = true := by
  have h := isDaemonRunning_frame_effect
    { connected := true, connecting := true, channelOpen := false }
  exact ⟨h.1, h.2.2.2 [ProbeEvent.sockConnect] (by decide)⟩

/-- Command envelope received by the daemon over the channel. -/
structure CommandRequest where
  requestId : Nat
  action : String
  params : Nat
deriving DecidableEq

/-- Response envelope emitted by the daemon to the requesting socket. -/
structure CommandResponse where
  requestId : Nat
  success : Bool
  data : Option Nat
  error : Option String
deriving DecidableEq

/-- Success response wrapping a result or stream payload. -/
def mkSuccessResponse (rid : Nat) (d : Nat) : CommandResponse :=
  { requestId := rid, success := true, data := some d, error := none }

/-- Failure response produced by the catch block: it carries the originating
requestId and the message string of the thrown error. -/
def mkFailureResponse (rid : Nat) (msg : String) : CommandResponse :=
  { requestId := rid, success := false, data := none, error := some msg }

/-- The per-command handler body of setupIPC, as the list of response
envelopes it emits. For streamMessages the injected callback emits one
success response per stream event and the registering call returns early with
no terminal response; events emitted before a thrown error survive and the
catch adds one failure response for the error. For any other action the
awaited result is wrapped in one success response, and a thrown error becomes
one failure response. The atomic executor maps an action and params to a
result or a thrown message; the stream executor yields the payloads passed to
the callback plus an optional thrown message. -/
def serveCommand (execAtomic : String → Nat → Except String Nat)
    (execStream : Nat → List Nat × Option String)
    (req : CommandRequest) : List CommandResponse :=
  if req.action == "streamMessages" then
    (execStream req.params).1.map (mkSuccessResponse req.requestId) ++
      (match (execStream req.params).2 with
       | none => []
       | some msg => [mkFailureResponse req.requestId msg])
  else
    match execAtomic req.action req.params with
    | Except.ok result => [mkSuccessResponse req.requestId result]
    | Except.error msg => [mkFailureResponse req.requestId msg]

/-- State of the serving loop: whether the command listener is attached to
the server, and the responses emitted so far. -/
structure ServeLoopState where
  commandListenerAttached : Bool
  emitted : List CommandResponse
deriving DecidableEq

/-- Serving-loop state right after setupIPC registered the command handler. -/
def initServeLoop : ServeLoopState :=
  { commandListenerAttached := true, emitted := [] }

/-- One received command envelope: with the listener attached the handler
runs, its try/catch converting any dispatch failure into a failure response;
nothing in the handler or its catch ever detaches the listener. -/
def serveLoopStep (execAtomic : String → Nat → Except String Nat)
    (execStream : Nat → List Nat × Option String)
    (st : ServeLoopState) (req : CommandRequest) : ServeLoopState :=
  if st.commandListenerAttached = true then
    { st with emitted := st.emitted ++ serveCommand execAtomic execStream req }
  else st

/-- Run the serving loop over a list of received command envelopes. -/
def serveLoopRun (execAtomic : String → Nat → Except String Nat)
    (execStream : Nat → List Nat × Option String)
    (reqs : List CommandRequest) (st : ServeLoopState) : ServeLoopState :=
  reqs.foldl (serveLoopStep execAtomic execStream) st

theorem serveLoopRun_emitted (execAtomic : String → Nat → Except String Nat)
    (execStream : Nat → List Nat × Option String)
    (reqs : List CommandRequest) (st : ServeLoopState)
    (h : st.commandListenerAttached = true) :
    serveLoopRun execAtomic execStream reqs st =
      { commandListenerAttached := true
        emitted := st.emitted ++
          (reqs.map (serveCommand execAtomic execStream)).flatten } := by
  induction reqs generalizing st with
  | nil =>
      cases st
      simp_all [serveLoopRun]
  | cons req reqs ih =>
      have hstep : serveLoopStep execAtomic execStream st req =
          { commandListenerAttached := true
            emitted := st.emitted ++ serveCommand execAtomic execStream req } := by
        cases st
        simp_all [serveLoopStep]
      have hrun : serveLoopRun execAtomic execStream (req :: reqs) st =
          serveLoopRun execAtomic execStream reqs
            { commandListenerAttached := true
              emitted := st.emitted ++ serveCommand execAtomic execStream req } := by
        show serveLoopRun execAtomic execStream reqs
          (serveLoopStep execAtomic execStream st req) = _
        rw [hstep]
      rw [hrun, ih _ rfl]
      simp [List.append_assoc]

/-- C9. Command failures are isolated per command: a dispatch error on an
atomic action is converted into exactly one failure response carrying the
originating requestId and the error message; a dispatch error on a streaming
action is converted the same way after the already-emitted stream events;
every emitted response carries the requestId of its request; and over any
sequence of received commands the listener stays attached and every command
is handled — a failing command never terminates the serving loop. -/
theorem daemon_command_isolation
    (execAtomic : String → Nat → Except String Nat)
    (execStream : Nat → List Nat × Option String) :
    (∀ (req : CommandRequest) (msg : String),
        (req.action == "streamMessages") = false →
        execAtomic req.action req.params = Except.error msg →
        serveCommand execAtomic execStream req
          = [mkFailureResponse req.requestId msg])
    ∧ (∀ (req : CommandRequest) (msg : String),
        (req.action == "streamMessages") = true →
        (execStream req.params).2 = some msg →
        serveCommand execAtomic execStream req
          = (execStream req.params).1.map (mkSuccessResponse req.requestId)
            ++ [mkFailureResponse req.requestId msg])
    ∧ (∀ (req : CommandRequest) (r : CommandResponse),
        r ∈ serveCommand execAtomic execStream req →
        r.requestId = req.requestId)
    ∧ (∀ reqs : List CommandRequest,
        (serveLoopRun execAtomic execStream reqs
          initServeLoop).commandListenerAttached = true
        ∧ (serveLoopRun execAtomic execStream reqs initServeLoop).emitted
          = (reqs.map (serveCommand execAtomic execStream)).flatten) := by
  refine ⟨?_, ?_, ?_, ?_⟩
  · intro req msg hna herr
    simp [serveCommand, hna, herr]
  · intro req msg hsa herr
    simp [serveCommand, hsa, herr]
  · intro req r hr
    by_cases hstream : (req.action == "streamMessages") = true
    · rw [serveCommand, if_pos hstream] at hr
      cases List.mem_append.mp hr with
      | inl h =>
          obtain ⟨d, _, hd⟩ := List.mem_map.mp h
          rw [← hd]
          rfl
      | inr h =>
          cases hs2 : (execStream req.params).2 with
          | none => rw [hs2] at h; exact absurd h (List.not_mem_nil r)
          | some msg =>
              rw [hs2] at h
              rw [List.mem_singleton.mp h]
              rfl
    · rw [serveCommand, if_neg hstream] at hr
      cases hexec : execAtomic req.action req.params with
      | ok result =>
          rw [hexec] at hr
          rw [List.mem_singleton.mp hr]
          rfl
      | error msg =>
          rw [hexec] at hr
          rw [List.mem_singleton.mp hr]
          rfl
  · intro reqs
    rw [serveLoopRun_emitted execAtomic execStream reqs initServeLoop rfl]
    exact ⟨rfl, rfl⟩

/-- Witness for C9: a concrete executor where one action throws; the failing
command yields exactly one failure response and the loop still serves the
following command. -/
theorem daemon_command_isolation_witness :
    serveLoopRun
        (fun a p => if a == "listRooms" then Except.ok (p + 1)
          else Except.error "unknown action")
        (fun _ => ([], none))
        [{ requestId := 1, action := "boom", params := 0 },
         { requestId := 2, action := "listRooms", params := 4 }]
        initServeLoop =
      { commandListenerAttached := true
        emitted := [mkFailureResponse 1 "unknown action",
          mkSuccessResponse 2 5] } := by
  have h := (daemon_command_isolation
    (fun a p => if a == "listRooms" then Except.ok (p + 1)
      else Except.error "unknown action")
    (fun _ => ([], none))).2.2.2
    [{ requestId := 1, action := "boom", params := 0 },
     { requestId := 2, action := "listRooms", params := 4 }]
  obtain ⟨h1, h2⟩ := h
  have := serveLoopRun_emitted
    (fun a p => if a == "listRooms" then Except.ok (p + 1)
      else Except.error "unknown action")
    (fun _ => ([], none))
    [{ requestId := 1, action := "boom", params := 0 },
     { requestId := 2, action := "listRooms", params := 4 }]
    initServeLoop rfl
  rw [this]
  decide

/-- Fields of a MatrixDaemon instance relevant to startup and shutdown. The
constructor initializes commands to null; the client field is read by stop
but no method of the class ever assigns it; serverBound and serverServing
describe the hosted well-known channel. -/
structure DaemonState where
  commands : Option Nat
  client : Option Nat
  serverBound : Bool
  serverServing : Bool
deriving DecidableEq

/-- A freshly constructed MatrixDaemon. -/
def initDaemon : DaemonState :=
  { commands := none, client := none, serverBound := false,
    serverServing := false }

/-- MatrixDaemon.start: awaits the backend client creation first — a thrown
error propagates out of start with the state untouched, so setupIPC never
runs and the well-known channel name is never bound; on success it assigns
commands and only afterwards runs setupIPC, which binds the channel name and
starts serving. The created client is passed into MatrixCommands but never
stored in the client field of the daemon object. -/
def daemonStart (createClient : Except String Nat) (d : DaemonState) :
    Except String Unit × DaemonState :=
  match createClient with
  | Except.error e => (Except.error e, d)
  | Except.ok c =>
      let d1 := { d with commands := some c }
      let d2 := { d1 with serverBound := true, serverServing := true }
      (Except.ok (), d2)

/-- C10. From a fresh daemon, a failing backend client initialization makes
start propagate that error with the channel never bound and nothing serving;
a successful initialization assigns commands strictly before the channel is
bound and served, so whenever the daemon is serving (and hence dispatching
received commands), the commands field is non-null. -/
theorem daemon_start_order (createClient : Except String Nat) :
    (∀ e : String, createClient = Except.error e →
        daemonStart createClient initDaemon = (Except.error e, initDaemon)
        ∧ (daemonStart createClient initDaemon).2.serverBound = false
        ∧ (daemonStart createClient initDaemon).2.serverServing = false)
    ∧ (∀ c : Nat, createClient = Except.ok c →
        (daemonStart createClient initDaemon).1 = Except.ok ()
        ∧ (daemonStart createClient initDaemon).2.commands = some c
        ∧ (daemonStart createClient initDaemon).2.serverBound = true
        ∧ (daemonStart createClient initDaemon).2.serverServing = true)
    ∧ ((daemonStart createClient initDaemon).2.serverServing = true →
        (daemonStart createClient initDaemon).2.commands ≠ none) := by
  refine ⟨?_, ?_, ?_⟩
  · intro e he
    rw [he]
    exact ⟨rfl, rfl, rfl⟩
  · intro c hc
    rw [hc]
    exact ⟨rfl, rfl, rfl, rfl⟩
  · intro hserv
    cases createClient with
    | error e => simp [daemonStart, initDaemon] at hserv
    | ok c => simp [daemonStart]

/-- Witness for C10: both a failing and a successful backend initialization
evaluated on a fresh daemon. -/
theorem daemon_start_order_witness :
    daemonStart (Except.error "Client initialization failed") initDaemon
        = (Except.error "Client initialization failed", initDaemon)
    ∧ (daemonStart (Except.ok 3) initDaemon).2.commands = some 3
    ∧ (daemonStart (Except.ok 3) initDaemon).2.serverServing = true := by
  refine ⟨(((daemon_start_order (Except.error "Client initialization failed")).1)
    "Client initialization failed" rfl).1, ?_, ?_⟩
  · exact (((daemon_start_order (Except.ok 3)).2.1) 3 rfl).2.1
  · exact (((daemon_start_order (Except.ok 3)).2.1) 3 rfl).2.2.2

/-- Runtime of the daemon process around shutdown: the daemon object fields,
whether the backend Matrix client is running, whether any stop call reached
it, whether the stopped confirmation was emitted, and whether process exit
was scheduled. -/
structure DaemonRuntime where
  daemon : DaemonState
  backendClientRunning : Bool
  backendClientStopped : Bool
  emittedStopped : Bool
  exitScheduled : Bool
deriving DecidableEq

/-- Daemon runtime right after a successful start: the channel serves, the
backend client is syncing, and the client field of the daemon object is still
unset because start never assigns it. -/
def runningDaemon (c : Nat) : DaemonRuntime :=
  { daemon := (daemonStart (Except.ok c) initDaemon).2
    backendClientRunning := true
    backendClientStopped := false
    emittedStopped := false
    exitScheduled := false }

/-- MatrixDaemon.stop: stops the IPC server, then runs the optional-chained
stop on the client field of the daemon object; when that field is unset the
chain is a no-op and the backend client keeps running. -/
def daemonStopMethod (rt : DaemonRuntime) : DaemonRuntime :=
  let rt1 : DaemonRuntime :=
    { rt with daemon := { rt.daemon with serverServing := false } }
  match rt1.daemon.client with
  | none => rt1
  | some _ =>
      { rt1 with backendClientStopped := true, backendClientRunning := false }

/-- The stop_daemon handler of setupIPC: calls stop, emits the stopped
confirmation to the requesting socket, then schedules process exit after a
100ms delay. -/
def handleStopDaemon (rt : DaemonRuntime) : DaemonRuntime :=
  let rt1 := daemonStopMethod rt
  let rt2 := { rt1 with emittedStopped := true }
  { rt2 with exitScheduled := true }

/-- C8. Evaluating the stop_daemon handler on a daemon after a successful
start: the channel stops serving, the confirmation is emitted and exit is
scheduled, but because start never assigns the client field, the
optional-chained client stop inside MatrixDaemon.stop is a no-op — the
backend Matrix client is never stopped, contradicting both the claim and the
doc comment of stop. -/
theorem daemon_stop_skips_backend_client :
    (runningDaemon 0).daemon.client = none
    ∧ (handleStopDaemon (runningDaemon 0)).daemon.serverServing = false
    ∧ (handleStopDaemon (runningDaemon 0)).emittedStopped = true
    ∧ (handleStopDaemon (runningDaemon 0)).exitScheduled = true
    ∧ (handleStopDaemon (runningDaemon 0)).backendClientStopped = false
    ∧ (handleStopDaemon (runningDaemon 0)).backendClientRunning = true := by
  decide

end CipherChat
